import Mathlib

/-!
Verification development for the gys-generator repository.

The repository scrapes a sneaker catalog site and writes one JSON file per
non-excluded catalog item.  The development below is a shallow embedding of
the decision structure of the source files `generator.py`, `gys-generator.py`,
`shoepair.py` and `globals.py` into Lean:

* pure Python functions become Lean functions;
* Python exceptions become an explicit `Except PyExc` result;
* external collaborators (the regular-expression library, the JSON
  serializer, the HTTP client, the headless browser and the HTML/CSS
  selector library) are passed in as function parameters, exactly at the
  call sites where the source invokes them;
* file writes are modelled as the pair (file path, written JSON value)
  that the source hands to the filesystem.
-/

set_option autoImplicit false

namespace GYS

/-- A decoded JSON value, the data that `json.loads` hands to the program.
Objects keep their key/value pairs in order; the source only ever builds
objects with distinct keys. -/
inductive Json where
  | null
  | bool (b : Bool)
  | int (n : Int)
  | str (s : String)
  | arr (elems : List Json)
  | obj (kvs : List (String × Json))

/-- Lookup of a key in the key/value list of a JSON object, as Python
dictionary subscripting does (keys are unique in decoded objects). -/
def alistLookup : List (String × Json) → String → Option Json
  | [], _ => none
  | (k, v) :: rest, key => if k = key then some v else alistLookup rest key

/-- Python `d[key]` / `key in d` support: lookup on a JSON object, `none`
for a missing key or a non-object. -/
def Json.lookup (j : Json) (key : String) : Option Json :=
  match j with
  | Json.obj kvs => alistLookup kvs key
  | _ => none

/-- Python `key in d` on a decoded JSON object. -/
def Json.hasKey (j : Json) (key : String) : Bool :=
  (j.lookup key).isSome

/-- The Python exceptions the embedded code can raise. -/
inductive PyExc where
  | keyError (key : String)
  | valueError
  | typeError
deriving DecidableEq

/-- An HTML element as the selector library hands it back: its text and its
attribute list (`elem.text`, `elem[attr]`). -/
structure Element where
  text : String
  attrs : List (String × String)
deriving DecidableEq

/-- A parsed page for selector queries: a CSS selector string mapped to the
list of matching elements, in document order (`BeautifulSoup.select`). -/
def Soup : Type := String → List Element

/-- Whether `needle` occurs as a contiguous sublist of `hay`
(the Python substring test `needle in hay` on the character lists). -/
def listContains (needle : List Char) : List Char → Bool
  | [] => needle.isEmpty
  | c :: rest => needle.isPrefixOf (c :: rest) || listContains needle rest

/-- Python string containment `needle in hay`. -/
def strContains (needle hay : String) : Bool :=
  listContains needle.toList hay.toList

/-- Case-insensitive substring search, the behaviour of
`re.search(pat, s, re.IGNORECASE)` for a pattern without regex
metacharacters.  Used to instantiate the abstract search parameter in
concrete witnesses. -/
def searchCI (pat s : String) : Bool :=
  listContains (pat.toList.map Char.toLower) (s.toList.map Char.toLower)

namespace Globals

/-- Sentinel used when the name selector matches nothing (`globals.py`). -/
def NULL_NAME_STRING : String := "NoNameFound"

/-- Sentinel used when the image selector matches nothing (`globals.py`). -/
def NULL_IMAGE_STRING : String := "NoImageURLFound"

/-- Base site URL (`globals.py`). -/
def BASE_SITE : String := "https://www.flightclub.com"

/-- Search endpoint URL prefix (`globals.py`). -/
def BASE_SEARCH_SITE : String := BASE_SITE ++ "/catalogsearch/result/?q="

end Globals

/-- A resolved shoe: the `ShoePair` object observed through its two
properties `get_name` and `get_image`. -/
structure ShoePair where
  get_name : String
  get_image : String
deriving DecidableEq

/-- Result of `create_shoe_pair`: either the candidate was excluded — the
Python function prints the matching tag in its diagnostic and returns
`None`; the constructor records that reported tag — or a `ShoePair` was
constructed. -/
inductive CSPResult where
  | excluded (etag : String)
  | pair (p : ShoePair)
deriving DecidableEq

namespace Generator

/-- Embedding of the `for etag in excludetags` loop of
`generator.create_shoe_pair`.  The external call
`re.search(etag, name, re.IGNORECASE)` is abstracted as the boolean
parameter `search`; `re.search` requires a string, so a non-string name
raises a `TypeError` at the first search (with an empty tag list the name
is never inspected, as in the source).  Returns the tag that triggered
exclusion, if any. -/
def excludeLoop (search : String → String → Bool) (nameJson : Json) :
    List String → Except PyExc (Option String)
  | [] => Except.ok none
  | etag :: rest =>
    match nameJson with
    | Json.str name =>
        if search etag name then Except.ok (some etag)
        else excludeLoop search nameJson rest
    | _ => Except.error PyExc.typeError

/-- Embedding of `generator.create_shoe_pair`.  The construction
`shoepair.ShoePair(idobj["id"], excludetags)` performs live browsing; that
resolution is abstracted as the parameter `resolve` applied to the value of
the candidate record under the key "id".  The subscripts `idobj["name"]`
and `idobj["id"]` raise `KeyError` when the key is absent. -/
def create_shoe_pair (search : String → String → Bool) (resolve : Json → ShoePair)
    (idobj : Json) (excludetags : List String) : Except PyExc CSPResult :=
  match idobj.lookup "name" with
  | none => Except.error (PyExc.keyError "name")
  | some nameJson =>
    match excludeLoop search nameJson excludetags with
    | Except.error e => Except.error e
    | Except.ok (some etag) => Except.ok (CSPResult.excluded etag)
    | Except.ok none =>
      match idobj.lookup "id" with
      | none => Except.error (PyExc.keyError "id")
      | some idJson => Except.ok (CSPResult.pair (resolve idJson))

/-- Embedding of `generator.create_file`: the file path and the JSON value
written (`json.dumps({"name": shoename, "img": imgval})`). -/
def create_file (dname name shoename imgval : String) : String × Json :=
  (dname ++ name ++ ".json",
   Json.obj [("name", Json.str shoename), ("img", Json.str imgval)])

/-- The numbering loop of `generator.create_all_files`, carrying the
running `current_filenum`.  Returns the files written, together with
either the final counter or the exception that aborted the loop (files
written before the exception are kept, as on a real filesystem). -/
def create_all_files_go (search : String → String → Bool) (resolve : Json → ShoePair)
    (directory : String) (excludetags : List String) (current : Int) :
    List Json → List (String × Json) × Except PyExc Int
  | [] => ([], Except.ok current)
  | shoe :: rest =>
    match create_shoe_pair search resolve shoe excludetags with
    | Except.error e => ([], Except.error e)
    | Except.ok (CSPResult.excluded _) =>
        create_all_files_go search resolve directory excludetags current rest
    | Except.ok (CSPResult.pair p) =>
        let next := current + 1
        let f := create_file directory (toString next) p.get_name p.get_image
        let r := create_all_files_go search resolve directory excludetags next rest
        (f :: r.1, r.2)

/-- Embedding of `generator.create_all_files`: starts the counter at
`startnum - 1` and returns the last file number used. -/
def create_all_files (search : String → String → Bool) (resolve : Json → ShoePair)
    (directory : String) (shoelist : List Json) (excludetags : List String)
    (startnum : Int) : List (String × Json) × Except PyExc Int :=
  create_all_files_go search resolve directory excludetags (startnum - 1) shoelist

/-- The fallback list `[{"name": "NULL"}]` of `generator.get_impressions_list`. -/
def fallbackImpressions : List Json :=
  [Json.obj [("name", Json.str "NULL")]]

/-- Embedding of `generator.get_impressions_list`.  External collaborators:
`script_tag` is the text of the script element found by
`bsoup.find("script", text=regex)` (or `none`), `regexSearch` is
`regex.search(...).group(1)` returning the bracketed contents, and
`jsonParse` is `json.loads("[" ++ part ++ "]")`, whose decode failure is an
exception.  Note the source returns the `json.loads` result directly, so a
parse failure propagates out of the function. -/
def get_impressions_list (regexSearch : String → Option String)
    (jsonParse : String → Except PyExc (List Json))
    (script_tag : Option String) : Except PyExc (List Json) :=
  match script_tag with
  | some txt =>
    match regexSearch txt with
    | some part => jsonParse part
    | none => Except.ok fallbackImpressions
  | none => Except.ok fallbackImpressions

/-- Embedding of `generator.create_execution_file`: the target path and the
flat JSON object handed to `json.dump`. -/
def create_execution_file (name site dir : String) (exclude_list : List String)
    (start : Int) : String × Json :=
  (name,
   Json.obj [("site", Json.str site), ("dir", Json.str dir),
             ("exclude_list", Json.arr (exclude_list.map Json.str)),
             ("start", Json.int start)])

/-- Embedding of the validation part of `generator.read_execution_file`,
applied to the already decoded JSON value (file reading and `json.loads`
are external; a decode failure is handled by the caller).  Returns the
error string and the loaded value, `none` on error. -/
def read_execution_file (loaded : Json) : String × Option Json :=
  match loaded with
  | Json.obj kvs =>
      if (alistLookup kvs "site").isNone then ("Missing site value", none)
      else if (alistLookup kvs "dir").isNone then ("Missing dir value", none)
      else if (alistLookup kvs "exclude_list").isNone then
        ("Missing exclude_list value", none)
      else if (alistLookup kvs "start").isNone then ("Missing start value", none)
      else ("", some (Json.obj kvs))
  | _ => ("Loaded JSON should be a dict ( \x7b\x7d )!", none)

/-- The required descriptor fields, in the order `read_execution_file`
checks them. -/
def requiredFields : List String := ["site", "dir", "exclude_list", "start"]

/-- Whether a character is whitespace that Python `int()` strips. -/
def pyWs (c : Char) : Bool :=
  c = ' ' || c = '\t' || c = '\n' || c = '\r' || c = '\x0b' || c = '\x0c'

/-- Whether every character of the list is a decimal digit. -/
def allDigits : List Char → Bool
  | [] => true
  | c :: rest => c.isDigit && allDigits rest

/-- Value of a list of decimal digits. -/
def digitsToNat (cs : List Char) : Nat :=
  cs.foldl (fun acc c => acc * 10 + (c.toNat - 48)) 0

/-- The signed decimal digits after stripping, as Python `int()` reads
them: an optional sign followed by at least one digit. -/
def pyIntCore : List Char → Except PyExc Int
  | [] => Except.error PyExc.valueError
  | '-' :: ds =>
      if ds ≠ [] ∧ allDigits ds then Except.ok (-(digitsToNat ds : Int))
      else Except.error PyExc.valueError
  | '+' :: ds =>
      if ds ≠ [] ∧ allDigits ds then Except.ok (digitsToNat ds : Int)
      else Except.error PyExc.valueError
  | ds =>
      if allDigits ds then Except.ok (digitsToNat ds : Int)
      else Except.error PyExc.valueError

/-- Python `int(s)` on the string returned by `input()`: strips surrounding
whitespace and reads an optionally signed decimal literal, raising
`ValueError` otherwise (digit-group underscores are not modelled; the
claims only exercise plain digit strings and non-numeric strings). -/
def pyInt (s : String) : Except PyExc Int :=
  pyIntCore (((s.toList.dropWhile pyWs).reverse.dropWhile pyWs).reverse)

/-- Embedding of `generator.prompt_execution_values` from its interactive
inputs: the site suffix typed by the user, the output directory (empty
normalised to "./"), the already parsed exclude list, and the raw text
typed at the starting-file-number prompt.  The source wraps `int(input())`
in `try ... except TypeError: start = 1`; only a `TypeError` is caught, so
any other exception from `int` propagates and no descriptor is produced.
On success the result is the descriptor content handed to
`create_execution_file` (the target path is the first prompt, irrelevant
here and fixed to ""). -/
def prompt_execution_values (siteInput dirInput : String)
    (exclude_list : List String) (startInput : String) : Except PyExc (String × Json) :=
  let site := Globals.BASE_SITE ++ "/" ++ siteInput
  let dir := if dirInput = "" then "./" else dirInput
  match pyInt startInput with
  | Except.ok n => Except.ok (create_execution_file "" site dir exclude_list n)
  | Except.error PyExc.typeError =>
      Except.ok (create_execution_file "" site dir exclude_list 1)
  | Except.error e => Except.error e

end Generator

namespace GysGen

/-- Embedding of the `for etag in excludetags` loop of the duplicated
`create_shoe_pair` in `gys-generator.py` (same abstraction of `re.search`
as in `Generator.excludeLoop`, embedded separately because the source
duplicates the code). -/
def excludeLoop (search : String → String → Bool) (nameJson : Json) :
    List String → Except PyExc (Option String)
  | [] => Except.ok none
  | etag :: rest =>
    match nameJson with
    | Json.str name =>
        if search etag name then Except.ok (some etag)
        else excludeLoop search nameJson rest
    | _ => Except.error PyExc.typeError

/-- Embedding of `create_shoe_pair` from `gys-generator.py`.  Unlike the
`generator.py` version it constructs the pair from the candidate name,
`ShoePair(name, excludetags)`; that live resolution is the abstract
parameter `resolve` applied to the name value. -/
def create_shoe_pair (search : String → String → Bool) (resolve : Json → ShoePair)
    (idobj : Json) (excludetags : List String) : Except PyExc CSPResult :=
  match idobj.lookup "name" with
  | none => Except.error (PyExc.keyError "name")
  | some nameJson =>
    match excludeLoop search nameJson excludetags with
    | Except.error e => Except.error e
    | Except.ok (some etag) => Except.ok (CSPResult.excluded etag)
    | Except.ok none => Except.ok (CSPResult.pair (resolve nameJson))

end GysGen

namespace Shoepair

/-- The primary name selector of `shoepair.py`. -/
def NAME_SELECTOR : String :=
  "div[class=\x27mb-padding product-name hidden-phone\x27] > h1"

/-- The primary image selector of `shoepair.py`. -/
def IMAGE_SELECTOR : String :=
  "div[class=\x27product-image product-img-box\x27] > img[class=\x27product-img\x27]"

/-- Embedding of `ShoePair._evaluate_soup_select`: run the selector and
return the first matched element, or `None` when the match list is empty. -/
def evaluate_soup_select (beautiful : Soup) (tag : String) : Option Element :=
  match beautiful tag with
  | [] => none
  | e :: _ => some e

/-- Embedding of `ShoePair._get_shoe_name`: the text of the first element
matched by the name selector, or the sentinel when nothing matches.  It
raises nothing. -/
def get_shoe_name (soup : Soup) : String :=
  match evaluate_soup_select soup NAME_SELECTOR with
  | none => Globals.NULL_NAME_STRING
  | some e => e.text

/-- Embedding of `ShoePair._get_shoe_image`: the `src` attribute of the
first element matched by the image selector, the sentinel when nothing
matches; the attribute subscript `elem["src"]` raises `KeyError` when the
matched element has no `src` attribute. -/
def get_shoe_image (soup : Soup) : Except PyExc String :=
  match evaluate_soup_select soup IMAGE_SELECTOR with
  | none => Except.ok Globals.NULL_IMAGE_STRING
  | some e =>
    match List.lookup "src" e.attrs with
    | none => Except.error (PyExc.keyError "src")
    | some v => Except.ok v

/-- A browser acquisition or release event; browsers are numbered in order
of acquisition within one item resolution (0 = the search-page browser,
1 = the item-page browser opened on a link match). -/
inductive Ev where
  | acquire (n : Nat)
  | release (n : Nat)
deriving DecidableEq

/-- The `for aelem in a_elements` loop of `ShoePair._search` over the
anchors of the search-results page: the first anchor whose `href`
contains "-" ++ id as a substring (`"-" + id in aelem["href"]`); the
subscript raises `KeyError` for an anchor without an `href` attribute. -/
def search_scan (id : String) : List Element → Except PyExc (Option String)
  | [] => Except.ok none
  | a :: rest =>
    match List.lookup "href" a.attrs with
    | none => Except.error (PyExc.keyError "href")
    | some href =>
        if strContains ("-" ++ id) href then Except.ok (some href)
        else search_scan id rest

/-- Embedding of `ShoePair._search` as its browser-event trace together
with the active browser and the navigated link, if any: a browser is
opened on the search page; on the first matching anchor a second browser
is opened on that link and the first is quit; with no match the search
browser itself is returned. -/
def search_events (id : String) (anchors : List Element) :
    List Ev × Except PyExc (Nat × Option String) :=
  match search_scan id anchors with
  | Except.error e => ([Ev.acquire 0], Except.error e)
  | Except.ok (some href) =>
      ([Ev.acquire 0, Ev.acquire 1, Ev.release 0], Except.ok (1, some href))
  | Except.ok none => ([Ev.acquire 0], Except.ok (0, none))

/-- Embedding of `ShoePair.__init__`: run `_search`, extract the name and
then the image from the page of the browser `_search` returned, and only
then call `brow.quit()`.  There is no try/finally in the source, so an
exception raised during extraction (or inside `_search`) skips the final
release.  `searchSoup` is the parsed search-results page, `itemPage`
maps a navigated link to its parsed page. -/
def shoe_pair_init (id : String) (anchors : List Element)
    (searchSoup : Soup) (itemPage : String → Soup) :
    List Ev × Except PyExc ShoePair :=
  match search_events id anchors with
  | (tr, Except.error e) => (tr, Except.error e)
  | (tr, Except.ok (b, nav)) =>
    let soup := match nav with
      | some href => itemPage href
      | none => searchSoup
    let name := get_shoe_name soup
    match get_shoe_image soup with
    | Except.error e => (tr, Except.error e)
    | Except.ok img => (tr ++ [Ev.release b], Except.ok ⟨name, img⟩)

/-- An anchor element carrying only an `href`, for instantiating the
search-page scan. -/
def mkAnchor (href : String) : Element := ⟨"", [("href", href)]⟩

end Shoepair

/-- Splitting a character list at "/" separators, for the path segments of
a URL. -/
def splitSegs : List Char → List (List Char)
  | [] => [[]]
  | c :: rest =>
    if c = '/' then [] :: splitSegs rest
    else
      match splitSegs rest with
      | [] => [[c]]
      | s :: ss => (c :: s) :: ss

/-- Formalisation of the CLAIM's selection criterion, from the words of the
spec: the link target contains the id as a URL path-segment suffix, i.e.
some "/"-separated segment of the target ends with the id.  Stated for
comparison against the code's criterion in `Shoepair.search_scan`. -/
def spec_path_segment_suffix (id href : String) : Bool :=
  (splitSegs href.toList).any (fun seg => id.toList.isSuffixOf seg)

/-! Helper lemmas. -/

/-- The exclusion loop of `generator.create_shoe_pair` on a string name
computes the first tag the search matches. -/
theorem Generator.excludeLoop_str (search : String → String → Bool) (name : String) :
    ∀ tags : List String,
      Generator.excludeLoop search (Json.str name) tags
        = Except.ok (tags.find? fun t => search t name)
  | [] => rfl
  | etag :: rest => by
      rw [Generator.excludeLoop, List.find?]
      cases h : search etag name with
      | true => simp [h]
      | false => simp [h, Generator.excludeLoop_str search name rest]

/-- The two duplicated exclusion loops compute the same result. -/
theorem GysGen.excludeLoop_eq (search : String → String → Bool) (nameJson : Json) :
    ∀ tags : List String,
      GysGen.excludeLoop search nameJson tags
        = Generator.excludeLoop search nameJson tags
  | [] => rfl
  | etag :: rest => by
      cases nameJson with
      | str name =>
          by_cases hs : search etag name = true
          · simp [GysGen.excludeLoop, Generator.excludeLoop, hs]
          · simp [GysGen.excludeLoop, Generator.excludeLoop, hs,
              GysGen.excludeLoop_eq search (Json.str name) rest]
      | null => rfl
      | bool b => rfl
      | int n => rfl
      | arr elems => rfl
      | obj kvs => rfl

/-! Concrete instantiations used by witnesses. -/

/-- A concrete resolver standing in for the live browsing done by the
`ShoePair` constructor. -/
def resolveA : Json → ShoePair := fun _ => ⟨"resolved name", "resolved img"⟩

/-- A concrete catalog candidate record. -/
def idobjRetro : Json :=
  Json.obj [("name", Json.str "Air Jordan 1 Retro High"), ("id", Json.str "12345")]

/-- A concrete catalog candidate record that no "retro" tag matches. -/
def idobjLow : Json :=
  Json.obj [("name", Json.str "Air Jordan 1 Low"), ("id", Json.str "54321")]

/-! Claims. -/

/-- C1: for every candidate name and ordered tag list, `create_shoe_pair`
(in `generator.py`) excludes the candidate — returns None — iff at least
one tag matches the name under the case-insensitive regular-expression
search; with an empty tag list nothing is excluded; and the tag recorded
in the exclusion diagnostic is the first matching tag in list order. -/
theorem create_shoe_pair_excludes_iff
    (search : String → String → Bool) (resolve : Json → ShoePair)
    (idobj : Json) (excludetags : List String) (name : String)
    (h : idobj.lookup "name" = some (Json.str name)) :
    ((∃ etag, Generator.create_shoe_pair search resolve idobj excludetags
        = Except.ok (CSPResult.excluded etag))
      ↔ ∃ t ∈ excludetags, search t name = true)
    ∧ (∀ etag, Generator.create_shoe_pair search resolve idobj excludetags
        = Except.ok (CSPResult.excluded etag)
        → excludetags.find? (fun t => search t name) = some etag)
    ∧ (excludetags = [] →
        ∀ etag, Generator.create_shoe_pair search resolve idobj excludetags
          ≠ Except.ok (CSPResult.excluded etag)) := by
  rcases hf : excludetags.find? (fun t => search t name) with _ | a
  · have hne : ∀ etag, Generator.create_shoe_pair search resolve idobj excludetags
        ≠ Except.ok (CSPResult.excluded etag) := by
      intro etag
      rcases hid : idobj.lookup "id" with _ | v <;>
        simp [Generator.create_shoe_pair, h, Generator.excludeLoop_str, hf, hid]
    rw [List.find?_eq_none] at hf
    refine ⟨⟨?_, ?_⟩, fun etag he => absurd he (hne etag),
      fun _ etag he => absurd he (hne etag)⟩
    · rintro ⟨etag, he⟩
      exact absurd he (hne etag)
    · rintro ⟨t, ht, hs⟩
      exact absurd hs (by simpa using hf t ht)
  · have heq : Generator.create_shoe_pair search resolve idobj excludetags
        = Except.ok (CSPResult.excluded a) := by
      simp [Generator.create_shoe_pair, h, Generator.excludeLoop_str, hf]
    refine ⟨⟨fun _ => ⟨a, List.mem_of_find?_eq_some hf, by simpa using List.find?_some hf⟩,
      fun _ => ⟨a, heq⟩⟩, ?_, ?_⟩
    · intro etag he
      rw [heq] at he
      simp only [Except.ok.injEq, CSPResult.excluded.injEq] at he
      subst he
      rfl
    · intro hempty
      rw [hempty] at hf
      simp [List.find?] at hf

/-- C1 witness: on the record named "Air Jordan 1 Retro High" with the tag
list ["retro"], the filter excludes and the first (only) matching tag is
"retro". -/
theorem create_shoe_pair_excludes_iff_witness :
    ∃ etag, Generator.create_shoe_pair searchCI resolveA idobjRetro ["retro"]
      = Except.ok (CSPResult.excluded etag) :=
  (create_shoe_pair_excludes_iff searchCI resolveA idobjRetro ["retro"]
      "Air Jordan 1 Retro High" rfl).1.mpr
    ⟨"retro", by simp, by rfl⟩

/-- Whether `create_all_files` keeps a candidate: the filter constructs a
`ShoePair` for it (neither excluded nor aborted by an exception). -/
def isKept (search : String → String → Bool) (resolve : Json → ShoePair)
    (excludetags : List String) (shoe : Json) : Bool :=
  match Generator.create_shoe_pair search resolve shoe excludetags with
  | Except.ok (CSPResult.pair _) => true
  | _ => false

/-- Number of kept candidates in a shoe list. -/
def keptCount (search : String → String → Bool) (resolve : Json → ShoePair)
    (excludetags : List String) (shoelist : List Json) : Nat :=
  shoelist.countP (isKept search resolve excludetags)

/-- With an empty tag list `create_shoe_pair` never reports an exclusion. -/
theorem Generator.create_shoe_pair_empty_not_excluded
    (search : String → String → Bool) (resolve : Json → ShoePair) (shoe : Json) :
    ∀ etag, Generator.create_shoe_pair search resolve shoe []
      ≠ Except.ok (CSPResult.excluded etag) := by
  intro etag
  rcases hn : shoe.lookup "name" with _ | nj
  · simp [Generator.create_shoe_pair, hn]
  · rcases hid : shoe.lookup "id" with _ | v <;>
      simp [Generator.create_shoe_pair, hn, hid, Generator.excludeLoop]

/-- The numbering loop invariant of `create_all_files_go`: when the loop
finishes without an exception, the final counter is the initial counter
plus the number of kept candidates, one file is written per kept candidate
and none per excluded one, the i-th file written is numbered
`current + 1 + i`, and every candidate was processed without exception. -/
theorem Generator.create_all_files_go_spec (search : String → String → Bool)
    (resolve : Json → ShoePair) (directory : String) (excludetags : List String) :
    ∀ (shoelist : List Json) (current : Int) (files : List (String × Json)) (last : Int),
      Generator.create_all_files_go search resolve directory excludetags current shoelist
        = (files, Except.ok last) →
      last = current + keptCount search resolve excludetags shoelist
      ∧ files.length = keptCount search resolve excludetags shoelist
      ∧ (∀ i (hi : i < files.length),
          (files.get ⟨i, hi⟩).1 = directory ++ toString (current + 1 + (i : Int)) ++ ".json")
      ∧ (∀ shoe ∈ shoelist,
          ∃ r, Generator.create_shoe_pair search resolve shoe excludetags = Except.ok r) := by
  intro shoelist
  induction shoelist with
  | nil =>
      intro current files last h
      simp only [Generator.create_all_files_go, Prod.mk.injEq] at h
      obtain ⟨h1, h2⟩ := h
      subst h1
      refine ⟨?_, ?_, ?_, ?_⟩
      · simp [keptCount] at h2 ⊢
        omega
      · simp [keptCount]
      · intro i hi
        simp at hi
      · intro shoe hs
        simp at hs
  | cons shoe rest ih =>
      intro current files last h
      rcases hc : Generator.create_shoe_pair search resolve shoe excludetags with e | r
      · simp only [Generator.create_all_files_go, hc, Prod.mk.injEq] at h
        exact absurd h.2 (by simp)
      · rcases r with etag | p
        · have hnk : isKept search resolve excludetags shoe = false := by
            simp [isKept, hc]
          have hkept0 : keptCount search resolve excludetags (shoe :: rest)
              = keptCount search resolve excludetags rest := by
            simp [keptCount, List.countP_cons, hnk]
          simp only [Generator.create_all_files_go, hc] at h
          obtain ⟨ihlast, ihlen, ihnames, ihmem⟩ := ih current files last h
          refine ⟨?_, ?_, ihnames, ?_⟩
          · rw [hkept0]
            exact ihlast
          · rw [hkept0]
            exact ihlen
          · intro s hs
            rcases List.mem_cons.mp hs with hs | hs
            · exact ⟨CSPResult.excluded etag, hs ▸ hc⟩
            · exact ihmem s hs
        · have hk : isKept search resolve excludetags shoe = true := by
            simp [isKept, hc]
          have hkept1 : keptCount search resolve excludetags (shoe :: rest)
              = keptCount search resolve excludetags rest + 1 := by
            simp [keptCount, List.countP_cons, hk]
          simp only [Generator.create_all_files_go, hc] at h
          rcases hgo : Generator.create_all_files_go search resolve directory excludetags
              (current + 1) rest with ⟨fs, res⟩
          rw [hgo] at h
          simp only [Prod.mk.injEq] at h
          obtain ⟨h1, h2⟩ := h
          obtain ⟨ihlast, ihlen, ihnames, ihmem⟩ :=
            ih (current + 1) fs last (by rw [hgo, ← h2])
          subst h1
          refine ⟨?_, ?_, ?_, ?_⟩
          · rw [hkept1]
            push_cast
            omega
          · rw [hkept1]
            simp [ihlen]
          · intro i hi
            cases i with
            | zero =>
                show (Generator.create_file directory (toString (current + 1))
                  p.get_name p.get_image).1 = _
                simp only [Generator.create_file]
                have : current + 1 + ((0 : Nat) : Int) = current + 1 := by omega
                rw [this]
            | succ j =>
                have hj : j < fs.length := by
                  simpa using Nat.lt_of_succ_lt_succ (by simpa using hi)
                have := ihnames j hj
                show (fs.get ⟨j, hj⟩).1 = _
                rw [this]
                have : current + 1 + 1 + (j : Int) = current + 1 + ((j + 1 : Nat) : Int) := by
                  push_cast
                  omega
                rw [this]
          · intro s hs
            rcases List.mem_cons.mp hs with hs | hs
            · exact ⟨CSPResult.pair p, hs ▸ hc⟩
            · exact ihmem s hs

/-- C2: when a run of `create_all_files` over a shoe list completes, the
kept candidates are numbered consecutively from `startnum` in catalog
order, exactly one file is emitted per kept candidate and none per
excluded one, the returned value is `startnum - 1` plus the number of
kept candidates, and with an empty exclusion list every one of the N
candidates yields a file (numbered `startnum` through `startnum + N - 1`). -/
theorem create_all_files_numbering (search : String → String → Bool)
    (resolve : Json → ShoePair) (directory : String) (shoelist : List Json)
    (excludetags : List String) (startnum : Int)
    (files : List (String × Json)) (last : Int)
    (h : Generator.create_all_files search resolve directory shoelist excludetags startnum
      = (files, Except.ok last)) :
    last = startnum - 1 + keptCount search resolve excludetags shoelist
    ∧ files.length = keptCount search resolve excludetags shoelist
    ∧ (∀ i (hi : i < files.length),
        (files.get ⟨i, hi⟩).1 = directory ++ toString (startnum + (i : Int)) ++ ".json")
    ∧ (excludetags = [] → files.length = shoelist.length) := by
  obtain ⟨hlast, hlen, hnames, hmem⟩ :=
    Generator.create_all_files_go_spec search resolve directory excludetags shoelist
      (startnum - 1) files last h
  refine ⟨hlast, hlen, ?_, ?_⟩
  · intro i hi
    have := hnames i hi
    rw [this]
    have : startnum - 1 + 1 + (i : Int) = startnum + (i : Int) := by omega
    rw [this]
  · intro hempty
    subst hempty
    rw [hlen, keptCount]
    rw [List.countP_eq_length]
    intro shoe hs
    obtain ⟨r, hr⟩ := hmem shoe hs
    rcases r with etag | p
    · exact absurd hr (Generator.create_shoe_pair_empty_not_excluded search resolve shoe etag)
    · simp [isKept, hr]

/-- C2 witness: a concrete run over two candidates with the tag "retro"
keeps one candidate, writes one file and returns the start number. -/
theorem create_all_files_numbering_witness :
    (1 : Int) = 1 - 1 + keptCount searchCI resolveA ["retro"] [idobjRetro, idobjLow] :=
  (create_all_files_numbering searchCI resolveA "./" [idobjRetro, idobjLow]
    ["retro"] 1 [("./1.json",
      Json.obj [("name", Json.str "resolved name"), ("img", Json.str "resolved img")])]
    1 rfl).1

/-- C3 (evaluation at the failing input): when the impressions marker is
not found, `get_impressions_list` does return the fallback list
`[{"name": "NULL"}]` without raising; but a run of `create_all_files` over
that fallback list with an empty exclusion list raises `KeyError` on the
missing "id" field — `generator.create_shoe_pair` subscripts
`idobj["id"]`, which the fallback record does not carry — aborting with
zero files written instead of emitting one placeholder file. -/
theorem get_impressions_fallback_run_raises
    (regexSearch : String → Option String)
    (jsonParse : String → Except PyExc (List Json))
    (search : String → String → Bool) (resolve : Json → ShoePair)
    (directory : String) (startnum : Int) :
    Generator.get_impressions_list regexSearch jsonParse none
      = Except.ok Generator.fallbackImpressions
    ∧ Generator.create_all_files search resolve directory
        Generator.fallbackImpressions [] startnum
      = ([], Except.error (PyExc.keyError "id")) :=
  ⟨rfl, rfl⟩

/-- C4: descriptor validation in `read_execution_file` — a non-mapping
input yields the malformed-object error with no descriptor; a mapping
yields the error naming exactly the first missing required field in the
fixed order site, dir, exclude_list, start; and when all four fields are
present it yields the empty error string with the mapping unchanged. -/
theorem read_execution_file_validation (loaded : Json) :
    ((∀ kvs, loaded ≠ Json.obj kvs) →
      Generator.read_execution_file loaded
        = ("Loaded JSON should be a dict ( \x7b\x7d )!", none))
    ∧ (∀ kvs, loaded = Json.obj kvs →
        (∀ f, List.find? (fun g => ! loaded.hasKey g) Generator.requiredFields = some f →
          Generator.read_execution_file loaded = ("Missing " ++ f ++ " value", none))
        ∧ (List.find? (fun g => ! loaded.hasKey g) Generator.requiredFields = none →
          Generator.read_execution_file loaded = ("", some loaded))) := by
  cases loaded with
  | obj kvs =>
      refine ⟨fun hne => absurd rfl (hne kvs), ?_⟩
      rintro kvs' hk
      injection hk with hkv
      subst hkv
      rcases h1 : alistLookup kvs "site" with _ | v1
      · refine ⟨?_, ?_⟩
        · intro f hf
          simp [Generator.requiredFields, List.find?, Json.hasKey, Json.lookup, h1] at hf
          subst hf
          simp [Generator.read_execution_file, h1]
        · intro hf
          simp [Generator.requiredFields, List.find?, Json.hasKey, Json.lookup, h1] at hf
      · rcases h2 : alistLookup kvs "dir" with _ | v2
        · refine ⟨?_, ?_⟩
          · intro f hf
            simp [Generator.requiredFields, List.find?, Json.hasKey, Json.lookup,
              h1, h2] at hf
            subst hf
            simp [Generator.read_execution_file, h1, h2]
          · intro hf
            simp [Generator.requiredFields, List.find?, Json.hasKey, Json.lookup,
              h1, h2] at hf
        · rcases h3 : alistLookup kvs "exclude_list" with _ | v3
          · refine ⟨?_, ?_⟩
            · intro f hf
              simp [Generator.requiredFields, List.find?, Json.hasKey, Json.lookup,
                h1, h2, h3] at hf
              subst hf
              simp [Generator.read_execution_file, h1, h2, h3]
            · intro hf
              simp [Generator.requiredFields, List.find?, Json.hasKey, Json.lookup,
                h1, h2, h3] at hf
          · rcases h4 : alistLookup kvs "start" with _ | v4
            · refine ⟨?_, ?_⟩
              · intro f hf
                simp [Generator.requiredFields, List.find?, Json.hasKey, Json.lookup,
                  h1, h2, h3, h4] at hf
                subst hf
                simp [Generator.read_execution_file, h1, h2, h3, h4]
              · intro hf
                simp [Generator.requiredFields, List.find?, Json.hasKey, Json.lookup,
                  h1, h2, h3, h4] at hf
            · refine ⟨?_, ?_⟩
              · intro f hf
                simp [Generator.requiredFields, List.find?, Json.hasKey, Json.lookup,
                  h1, h2, h3, h4] at hf
              · intro _
                simp [Generator.read_execution_file, h1, h2, h3, h4]
  | null =>
      exact ⟨fun _ => rfl, fun kvs hk => by cases hk⟩
  | bool b =>
      exact ⟨fun _ => rfl, fun kvs hk => by cases hk⟩
  | int n =>
      exact ⟨fun _ => rfl, fun kvs hk => by cases hk⟩
  | str s =>
      exact ⟨fun _ => rfl, fun kvs hk => by cases hk⟩
  | arr elems =>
      exact ⟨fun _ => rfl, fun kvs hk => by cases hk⟩

/-- C4 witness: a descriptor with only the "site" field is rejected with
the dir error; the first conjunct applied to a string input gives the
malformed-object error. -/
theorem read_execution_file_validation_witness :
    Generator.read_execution_file (Json.obj [("site", Json.str "s")])
      = ("Missing dir value", none) :=
  ((read_execution_file_validation (Json.obj [("site", Json.str "s")])).2
    [("site", Json.str "s")] rfl).1 "dir" (by rfl)

/-- C5: persisting a descriptor with `create_execution_file` and loading
it back through `read_execution_file` validation yields the empty error
string and a mapping whose site, dir, exclude_list and start values are
exactly those written. -/
theorem execution_file_round_trip (name site dir : String)
    (exclude_list : List String) (start : Int) :
    Generator.read_execution_file (Generator.create_execution_file name site dir exclude_list start).2
      = ("", some (Generator.create_execution_file name site dir exclude_list start).2)
    ∧ (Generator.create_execution_file name site dir exclude_list start).2.lookup "site"
      = some (Json.str site)
    ∧ (Generator.create_execution_file name site dir exclude_list start).2.lookup "dir"
      = some (Json.str dir)
    ∧ (Generator.create_execution_file name site dir exclude_list start).2.lookup "exclude_list"
      = some (Json.arr (exclude_list.map Json.str))
    ∧ (Generator.create_execution_file name site dir exclude_list start).2.lookup "start"
      = some (Json.int start) :=
  ⟨rfl, rfl, rfl, rfl, rfl⟩

/-- C6: when the name selector matches no element the resolved name is the
sentinel "NoNameFound", when the image selector matches no element the
resolved image is the sentinel "NoImageURLFound" (returned, not raised),
and the emitted file then carries the sentinel strings. -/
theorem selector_miss_yields_sentinels (soup : Soup) (directory fname : String)
    (hn : soup Shoepair.NAME_SELECTOR = [])
    (hi : soup Shoepair.IMAGE_SELECTOR = []) :
    Shoepair.get_shoe_name soup = Globals.NULL_NAME_STRING
    ∧ Shoepair.get_shoe_image soup = Except.ok Globals.NULL_IMAGE_STRING
    ∧ (Generator.create_file directory fname (Shoepair.get_shoe_name soup)
        Globals.NULL_IMAGE_STRING).2
      = Json.obj [("name", Json.str "NoNameFound"), ("img", Json.str "NoImageURLFound")] := by
  have h1 : Shoepair.get_shoe_name soup = Globals.NULL_NAME_STRING := by
    simp [Shoepair.get_shoe_name, Shoepair.evaluate_soup_select, hn]
  refine ⟨h1, ?_, ?_⟩
  · simp [Shoepair.get_shoe_image, Shoepair.evaluate_soup_select, hi]
  · rw [h1]
    rfl

/-- C6 witness: on a page where no selector matches anything, the name is
the sentinel. -/
theorem selector_miss_yields_sentinels_witness :
    Shoepair.get_shoe_name (fun _ => []) = Globals.NULL_NAME_STRING :=
  (selector_miss_yields_sentinels (fun _ => []) "./" "1" rfl rfl).1

/-- A page whose image selector matches an element with no `src`
attribute, so that image extraction raises `KeyError`. -/
def badSoup : Soup :=
  fun sel => if sel = Shoepair.IMAGE_SELECTOR then [⟨"", []⟩] else []

/-- C7 counterexample: a resolution during which image extraction raises —
the image selector matches an element carrying no `src` attribute — ends
with the search browser acquired but never released: the source has no
try/finally around extraction, so the claim that every acquired session is
released even when extraction raises is false. -/
theorem shoe_pair_init_leaks_on_raise :
    Shoepair.Ev.acquire 0 ∈ (Shoepair.shoe_pair_init "x" [] badSoup (fun _ => badSoup)).1
    ∧ Shoepair.Ev.release 0 ∉ (Shoepair.shoe_pair_init "x" [] badSoup (fun _ => badSoup)).1
    ∧ (Shoepair.shoe_pair_init "x" [] badSoup (fun _ => badSoup)).2
      = Except.error (PyExc.keyError "src") := by
  have htr : Shoepair.shoe_pair_init "x" [] badSoup (fun _ => badSoup)
      = ([Shoepair.Ev.acquire 0], Except.error (PyExc.keyError "src")) := rfl
  rw [htr]
  refine ⟨by simp, by simp, rfl⟩

/-- C7 as amended: on every resolution that completes without an
exception, each browser acquired during the resolution is released before
the resolution returns (the first search browser is released when the
second browser is opened, and the active browser is released at the end);
when extraction raises, the active browser is not released. -/
theorem shoe_pair_init_releases_on_success (id : String) (anchors : List Element)
    (searchSoup : Soup) (itemPage : String → Soup) (p : ShoePair)
    (h : (Shoepair.shoe_pair_init id anchors searchSoup itemPage).2 = Except.ok p) :
    ∀ n, Shoepair.Ev.acquire n ∈ (Shoepair.shoe_pair_init id anchors searchSoup itemPage).1 →
      Shoepair.Ev.release n ∈ (Shoepair.shoe_pair_init id anchors searchSoup itemPage).1 := by
  intro n hn
  rcases hs : Shoepair.search_scan id anchors with e | o
  · have hbad : (Shoepair.shoe_pair_init id anchors searchSoup itemPage).2
        = Except.error e := by
      simp [Shoepair.shoe_pair_init, Shoepair.search_events, hs]
    rw [hbad] at h
    simp at h
  · rcases o with _ | href
    · rcases himg : Shoepair.get_shoe_image searchSoup with e | img
      · have hbad : (Shoepair.shoe_pair_init id anchors searchSoup itemPage).2
            = Except.error e := by
          simp [Shoepair.shoe_pair_init, Shoepair.search_events, hs, himg]
        rw [hbad] at h
        simp at h
      · have htr : (Shoepair.shoe_pair_init id anchors searchSoup itemPage).1
            = [Shoepair.Ev.acquire 0, Shoepair.Ev.release 0] := by
          simp [Shoepair.shoe_pair_init, Shoepair.search_events, hs, himg]
        rw [htr] at hn ⊢
        simp only [List.mem_cons, List.mem_singleton] at hn ⊢
        rcases hn with hn | hn | hn
        · injection hn with hn
          subst hn
          simp
        · cases hn
        · cases hn
    · rcases himg : Shoepair.get_shoe_image (itemPage href) with e | img
      · have hbad : (Shoepair.shoe_pair_init id anchors searchSoup itemPage).2
            = Except.error e := by
          simp [Shoepair.shoe_pair_init, Shoepair.search_events, hs, himg]
        rw [hbad] at h
        simp at h
      · have htr : (Shoepair.shoe_pair_init id anchors searchSoup itemPage).1
            = [Shoepair.Ev.acquire 0, Shoepair.Ev.acquire 1, Shoepair.Ev.release 0,
               Shoepair.Ev.release 1] := by
          simp [Shoepair.shoe_pair_init, Shoepair.search_events, hs, himg]
        rw [htr] at hn ⊢
        simp only [List.mem_cons, List.mem_singleton] at hn ⊢
        rcases hn with hn | hn | hn | hn | hn
        · injection hn with hn
          subst hn
          simp
        · injection hn with hn
          subst hn
          simp
        · cases hn
        · cases hn
        · cases hn

/-- C7 witness for the amended statement: a resolution with an empty
search page completes and releases the single browser it acquired. -/
theorem shoe_pair_init_releases_on_success_witness :
    Shoepair.Ev.release 0 ∈ (Shoepair.shoe_pair_init "x" []
      (fun _ => []) (fun _ _ => [])).1 :=
  shoe_pair_init_releases_on_success "x" [] (fun _ => []) (fun _ _ => [])
    ⟨Globals.NULL_NAME_STRING, Globals.NULL_IMAGE_STRING⟩ rfl 0 (by decide)

/-- C8 counterexample: with candidate id "123" and a search page whose
only link target is "item-1234", the code selects and navigates to that
link — its href contains "-123" as a plain substring — although "123" is
not a suffix of any path segment of the target, contradicting the claimed
path-segment-suffix selection criterion. -/
theorem search_scan_not_segment_suffix :
    Shoepair.search_scan "123" [Shoepair.mkAnchor "item-1234"]
      = Except.ok (some "item-1234")
    ∧ spec_path_segment_suffix "123" "item-1234" = false :=
  ⟨rfl, rfl⟩

/-- C8 as amended: `_search` scans the link targets in document order and
selects the first whose href contains "-" ++ id as a plain substring; when
such a link exists it opens a second browser on it (releasing the first)
and extraction happens there, otherwise extraction falls back to the
search-results page in the original browser. -/
theorem search_scan_first_substring_match (id : String) (hrefs : List String) :
    Shoepair.search_scan id (hrefs.map Shoepair.mkAnchor)
      = Except.ok (hrefs.find? (fun h => strContains ("-" ++ id) h))
    ∧ Shoepair.search_events id (hrefs.map Shoepair.mkAnchor)
      = (match hrefs.find? (fun h => strContains ("-" ++ id) h) with
         | some href =>
             ([Shoepair.Ev.acquire 0, Shoepair.Ev.acquire 1, Shoepair.Ev.release 0],
              Except.ok (1, some href))
         | none => ([Shoepair.Ev.acquire 0], Except.ok (0, none))) := by
  have hscan : ∀ hs : List String,
      Shoepair.search_scan id (hs.map Shoepair.mkAnchor)
        = Except.ok (hs.find? (fun h => strContains ("-" ++ id) h)) := by
    intro hs
    induction hs with
    | nil => rfl
    | cons href rest ihr =>
        by_cases hc : strContains ("-" ++ id) href = true
        · simp [Shoepair.search_scan, Shoepair.mkAnchor, List.find?, hc]
        · simp [Shoepair.search_scan, Shoepair.mkAnchor, List.find?, hc, ihr]
  refine ⟨hscan hrefs, ?_⟩
  rw [Shoepair.search_events, hscan hrefs]
  rcases hrefs.find? (fun h => strContains ("-" ++ id) h) with _ | href <;> rfl

/-- C9 (evaluation at the failing input): typing a non-numeric starting
file number makes `int()` raise `ValueError`, which the prompt flow does
not catch — its handler only catches `TypeError` — so
`prompt_execution_values` propagates the exception and writes no
descriptor file, instead of defaulting the start value to 1. -/
theorem prompt_start_invalid_raises :
    Generator.prompt_execution_values "air-jordans/air-jordan-1" "" [] "abc"
      = Except.error PyExc.valueError
    ∧ Generator.pyInt "abc" = Except.error PyExc.valueError :=
  ⟨rfl, rfl⟩

/-- C10: the two duplicated exclusion filters, `create_shoe_pair` in
`generator.py` and `create_shoe_pair` in `gys-generator.py`, make the
identical keep/drop decision on every candidate record carrying a name —
each returns None exactly when the other does — and record the same first
matching tag in the exclusion diagnostic. -/
theorem create_shoe_pair_duplicates_agree
    (search : String → String → Bool) (resolveG resolveY : Json → ShoePair)
    (idobj : Json) (excludetags : List String) (nameJson : Json)
    (h : idobj.lookup "name" = some nameJson) :
    ∀ etag, Generator.create_shoe_pair search resolveG idobj excludetags
        = Except.ok (CSPResult.excluded etag)
      ↔ GysGen.create_shoe_pair search resolveY idobj excludetags
        = Except.ok (CSPResult.excluded etag) := by
  intro etag
  rcases hl : Generator.excludeLoop search nameJson excludetags with e | o
  · simp [Generator.create_shoe_pair, GysGen.create_shoe_pair, h,
      GysGen.excludeLoop_eq, hl]
  · rcases o with _ | a
    · rcases hid : idobj.lookup "id" with _ | v <;>
        simp [Generator.create_shoe_pair, GysGen.create_shoe_pair, h,
          GysGen.excludeLoop_eq, hl, hid]
    · simp [Generator.create_shoe_pair, GysGen.create_shoe_pair, h,
        GysGen.excludeLoop_eq, hl]

/-- C10 witness: on a concrete record both implementations drop the
candidate reporting the tag "retro". -/
theorem create_shoe_pair_duplicates_agree_witness :
    GysGen.create_shoe_pair searchCI resolveA idobjRetro ["retro"]
      = Except.ok (CSPResult.excluded "retro") :=
  (create_shoe_pair_duplicates_agree searchCI resolveA resolveA idobjRetro
      ["retro"] (Json.str "Air Jordan 1 Retro High") rfl "retro").mp rfl

end GYS
